import Mathlib

/-!
Verification development for the AI financial-analyst repository
(`financial_tools.py`, `app.py`).

The four data-adapter tools and the analyze-button ticker-resolution
handler are shallowly embedded as pure Lean functions.  External
collaborators are modelled at the boundary, following the code:

* Python dict/list/str/number values become the inductive `PyVal`
  (numbers as `ℚ`; floating-point artefacts are not modelled).
* A raised provider exception becomes the `Except.error` case of the
  provider argument; each `_run` body is a total function, mirroring the
  `try/except` that converts every exception into an error dict.
* The `cachetools.TTLCache` state becomes an association list of
  `(key, value, insert-time)` with an explicit clock argument; an entry
  is visible while `now < insertTime + ttl`, and insertion keeps at most
  `maxsize` entries (eviction order approximated by insertion recency -
  no claim below depends on the eviction order).
-/

/-- A Python runtime value, as produced and consumed by the adapter
tools: `None`, strings, numbers (modelled as `ℚ`), dicts (association
lists) and lists. -/
inductive PyVal where
  | pyNone : PyVal
  | pyStr (s : String) : PyVal
  | pyNum (q : ℚ) : PyVal
  | pyDict (d : List (String × PyVal)) : PyVal
  | pyList (xs : List PyVal) : PyVal

/-- Python `d.get(k)`: the value stored under the first matching key of
an association list, if any. -/
def dictGet (d : List (String × PyVal)) (k : String) : Option PyVal :=
  (d.find? (fun e => decide (e.1 = k))).map (fun e => e.2)

/-- Python `v.get(k)` on a value known to be used as a dict; `none` on a
non-dict. -/
def PyVal.get (v : PyVal) (k : String) : Option PyVal :=
  match v with
  | .pyDict d => dictGet d k
  | _ => none

/-- The key list of a dict value (empty for non-dicts). -/
def dictKeys (v : PyVal) : List String :=
  match v with
  | .pyDict d => d.map Prod.fst
  | _ => []

/-- Python truthiness for the values that occur here. -/
def truthy (v : PyVal) : Bool :=
  match v with
  | .pyNone => false
  | .pyStr s => !s.isEmpty
  | .pyNum q => decide (q ≠ 0)
  | .pyDict d => !d.isEmpty
  | .pyList xs => !xs.isEmpty

/-- Python truthiness of a `dict.get` result (`None` when absent). -/
def truthyOpt (v : Option PyVal) : Bool :=
  match v with
  | none => false
  | some v => truthy v

/-- A one-entry error dict as built by every adapter's `except` branch:
`\x7b"error": msg\x7d`. -/
def errDict (msg : String) : PyVal :=
  .pyDict [("error", .pyStr msg)]

/-! ## The TTL cache (`cachetools.TTLCache`) at the behavioural level -/

/-- Cache state: `(key, value, insert time)` entries, newest first. -/
abbrev Cache := List (String × PyVal × ℕ)

/-- All four tools construct their cache with `maxsize=100`. -/
def cacheMaxsize : ℕ := 100

/-- `key in cache` / `cache[key]`: an entry is returned while the clock
is strictly before its insert time plus the time-to-live. -/
def cacheLookup (c : Cache) (key : String) (now ttl : ℕ) : Option PyVal :=
  match c.find? (fun e => decide (e.1 = key)) with
  | some e => if now < e.2.2 + ttl then some e.2.1 else none
  | none => none

/-- `cache[key] = v` at time `t`: replaces any entry for `key` and keeps
at most `cacheMaxsize` entries. -/
def cacheInsert (c : Cache) (key : String) (v : PyVal) (t : ℕ) : Cache :=
  (key, v, t) :: ((c.filter (fun e => decide (e.1 ≠ key))).take (cacheMaxsize - 1))

/-- What a `_run` body (the code after the cache check) produces: the
returned dict, whether it stored the result in the cache, and whether it
contacted the underlying provider. -/
structure BodyOut where
  result : PyVal
  store : Bool
  fetched : Bool

/-- What one `_run` call produces: the returned dict, the cache state
after the call, and whether the underlying provider was contacted. -/
structure RunOut where
  result : PyVal
  cache : Cache
  fetched : Bool

/-- The shared `_run` pattern of all four tools: return the cached value
on a hit, otherwise run the body and store its result when it asks to. -/
def cachedRun (ttl : ℕ) (key : String) (cache : Cache) (now : ℕ) (body : BodyOut) : RunOut :=
  match cacheLookup cache key now ttl with
  | some v => ⟨v, cache, false⟩
  | none =>
      ⟨body.result, if body.store then cacheInsert cache key body.result now else cache,
       body.fetched⟩

/-! ## CompanyInfoTool -/

/-- `TTLCache(maxsize=100, ttl=1800)` of `CompanyInfoTool`. -/
def companyInfoTTL : ℕ := 1800

/-- The fixed output fields of `relevant_info` paired with the
`yfinance` `info` keys they are read from. -/
def infoKeyMap : List (String × String) :=
  [("company_name", "longName"), ("sector", "sector"), ("industry", "industry"),
   ("country", "country"), ("website", "website"),
   ("long_business_summary", "longBusinessSummary"),
   ("full_time_employees", "fullTimeEmployees")]

/-- Body of `CompanyInfoTool._run`.  The provider argument stands for
`yf.Ticker(ticker).info`: either the info dict or a raised exception's
message. -/
def companyInfoBody (ticker : String)
    (prov : Except String (List (String × PyVal))) : BodyOut :=
  match prov with
  | .error e =>
      ⟨errDict ("Failed to fetch company info for " ++ ticker ++ ": " ++ e), false, true⟩
  | .ok info =>
      ⟨.pyDict (infoKeyMap.map (fun p => (p.1, (dictGet info p.2).getD .pyNone))), true, true⟩

/-- `CompanyInfoTool._run`. -/
def companyInfoRun (cache : Cache) (now : ℕ) (ticker : String)
    (prov : Except String (List (String × PyVal))) : RunOut :=
  cachedRun companyInfoTTL ticker cache now (companyInfoBody ticker prov)

/-! ## CompanyFinancialsTool -/

/-- `TTLCache(maxsize=100, ttl=1800)` of `CompanyFinancialsTool`. -/
def companyFinancialsTTL : ℕ := 1800

/-- A financial statement dataframe, modelled as its columns (one dict
per annual column, most recent first); the empty list is an empty
dataframe. -/
abbrev StatementCols := List (List (String × PyVal))

/-- The three statement dataframes fetched from `yfinance`. -/
structure Statements where
  incomeStmt : StatementCols
  balanceSheet : StatementCols
  cashflow : StatementCols

/-- `get_latest_annual_data`: `"Not available"` on an empty dataframe,
otherwise the most recent column as a dict. -/
def getLatestAnnualData (cols : StatementCols) : PyVal :=
  match cols with
  | [] => .pyStr "Not available"
  | c :: _ => .pyDict c

/-- Keys extracted from the income-statement column. -/
def incomeKeys : List String :=
  ["Total Revenue", "Gross Profit", "Operating Income", "Net Income"]

/-- Keys extracted from the balance-sheet column. -/
def balanceKeys : List String :=
  ["Total Assets", "Total Liabilities Net Minority Interest",
   "Total Equity Gross Minority Interest", "Current Assets", "Current Liabilities"]

/-- Keys extracted from the cash-flow column. -/
def cashflowKeys : List String := ["Operating Cash Flow"]

/-- `annual.get(k)` for each fixed key, `None` when missing. -/
def selectFields (src : List (String × PyVal)) (keys : List String) :
    List (String × PyVal) :=
  keys.map (fun k => (k, (dictGet src k).getD .pyNone))

/-- One summary entry of the `financials` dict: the fixed keys read via
`.get` when the statement is a dict, the string `"Not available"`
otherwise. -/
def summarizeStatement (v : PyVal) (keys : List String) : PyVal :=
  match v with
  | .pyDict d => .pyDict (selectFields d keys)
  | _ => .pyStr "Not available"

/-- The three fixed top-level keys of the `financials` dict. -/
def financialsFieldNames : List String :=
  ["latest_annual_income_statement_summary", "latest_annual_balance_sheet_summary",
   "latest_annual_cash_flow_summary"]

/-- Body of `CompanyFinancialsTool._run`. -/
def companyFinancialsBody (ticker : String)
    (prov : Except String Statements) : BodyOut :=
  match prov with
  | .error e =>
      ⟨errDict ("Failed to fetch financial statements for " ++ ticker ++ ": " ++ e),
       false, true⟩
  | .ok s =>
      ⟨.pyDict
        [("latest_annual_income_statement_summary",
          summarizeStatement (getLatestAnnualData s.incomeStmt) incomeKeys),
         ("latest_annual_balance_sheet_summary",
          summarizeStatement (getLatestAnnualData s.balanceSheet) balanceKeys),
         ("latest_annual_cash_flow_summary",
          summarizeStatement (getLatestAnnualData s.cashflow) cashflowKeys)],
       true, true⟩

/-- `CompanyFinancialsTool._run`. -/
def companyFinancialsRun (cache : Cache) (now : ℕ) (ticker : String)
    (prov : Except String Statements) : RunOut :=
  cachedRun companyFinancialsTTL ticker cache now (companyFinancialsBody ticker prov)

/-! ## TickerSearchTool -/

/-- `TTLCache(maxsize=100, ttl=3600)` of `TickerSearchTool`. -/
def tickerSearchTTL : ℕ := 3600

/-- One Alpha Vantage `bestMatches` entry, at the fields the code reads
(`1. symbol`, `2. name`, `4. region`). -/
structure AVMatch where
  symbol : String
  name : String
  region : String
deriving DecidableEq

/-- The provider JSON at the keys the code inspects: `Error Message`,
`Note`, `bestMatches` (each possibly absent). -/
structure AVResponse where
  errorMessage : Option String
  note : Option String
  bestMatches : Option (List AVMatch)

/-- A raised exception of the search request: `requests` errors are
handled by the first `except` clause, everything else by the second. -/
inductive SearchExc where
  | request (msg : String)
  | other (msg : String)

/-- One `bestMatches` entry as the dict the tool returns and caches. -/
def matchToPy (m : AVMatch) : PyVal :=
  .pyDict [("1. symbol", .pyStr m.symbol), ("2. name", .pyStr m.name),
           ("4. region", .pyStr m.region)]

/-- Body of `TickerSearchTool._run` after the cache check: missing API
key, request failure, provider error message, rate-limit note, empty
match list, or the cached `\x7b"matches": ...\x7d` result. -/
def tickerSearchBody (apiKey : Option String) (companyName : String)
    (prov : Except SearchExc AVResponse) : BodyOut :=
  match apiKey with
  | none =>
      ⟨errDict "Alpha Vantage API key not found. Please set ALPHA_VANTAGE_API_KEY environment variable.",
       false, false⟩
  | some _ =>
      match prov with
      | .error (.request e) => ⟨errDict ("API request failed: " ++ e), false, true⟩
      | .error (.other e) =>
          ⟨errDict ("Failed to search for ticker for " ++ companyName ++ ": " ++ e),
           false, true⟩
      | .ok data =>
          match data.errorMessage with
          | some m => ⟨errDict ("Alpha Vantage API error: " ++ m), false, true⟩
          | none =>
              match data.note with
              | some n =>
                  ⟨.pyDict [("api_limit_note", .pyStr n), ("matches", .pyList [])],
                   false, true⟩
              | none =>
                  match data.bestMatches.getD [] with
                  | [] =>
                      ⟨.pyDict [("message", .pyStr "No matches found for the given keyword."),
                                ("matches", .pyList [])], false, true⟩
                  | m :: rest =>
                      ⟨.pyDict [("matches", .pyList ((m :: rest).map matchToPy))],
                       true, true⟩

/-- `TickerSearchTool._run`. -/
def tickerSearchRun (cache : Cache) (now : ℕ) (apiKey : Option String)
    (companyName : String) (prov : Except SearchExc AVResponse) : RunOut :=
  cachedRun tickerSearchTTL companyName cache now (tickerSearchBody apiKey companyName prov)

/-! ## HistoricalStockDataTool -/

/-- `TTLCache(maxsize=100, ttl=1800)` of `HistoricalStockDataTool`. -/
def historicalDataTTL : ℕ := 1800

/-- `cache_key = f"ticker_period"` of `HistoricalStockDataTool._run`. -/
def histCacheKey (ticker period : String) : String :=
  ticker ++ "_" ++ period

/-- One row of the history dataframe: the index date (as the formatted
`%Y-%m-%d` string) and the price columns. -/
structure HistRow where
  Date : String
  Open : ℚ
  High : ℚ
  Low : ℚ
  Close : ℚ
deriving DecidableEq

/-- `hist['High'].max()` over a non-empty row list `h :: t`. -/
def maxHigh (h : HistRow) (t : List HistRow) : ℚ :=
  t.foldl (fun acc r => max acc r.High) h.High

/-- `hist['Low'].min()` over a non-empty row list `h :: t`. -/
def minLow (h : HistRow) (t : List HistRow) : ℚ :=
  t.foldl (fun acc r => min acc r.Low) h.Low

/-- The floor of a rational, written out computably. -/
def ratFloor (q : ℚ) : ℤ :=
  q.num / q.den

/-- Python `round` to the nearest integer with ties to even (the
behaviour of `round` on exactly representable values; binary-float
artefacts are not modelled). -/
def roundHalfEven (q : ℚ) : ℤ :=
  if q - ratFloor q < 1 / 2 then ratFloor q
  else if 1 / 2 < q - ratFloor q then ratFloor q + 1
  else if ratFloor q % 2 = 0 then ratFloor q else ratFloor q + 1

/-- Python `round(q, 2)`. -/
def round2 (q : ℚ) : ℚ :=
  (roundHalfEven (q * 100) : ℚ) / 100

/-- Body of `HistoricalStockDataTool._run`: exception, empty history, or
the seven-field summary. -/
def historicalBody (ticker period : String)
    (prov : Except String (List HistRow)) : BodyOut :=
  match prov with
  | .error e =>
      ⟨errDict ("Failed to fetch historical stock data for " ++ ticker ++ ": " ++ e),
       false, true⟩
  | .ok [] =>
      ⟨errDict ("No historical data found for " ++ ticker ++ " for period " ++ period ++ "."),
       false, true⟩
  | .ok (h :: t) =>
      ⟨.pyDict [("ticker", .pyStr ticker), ("period", .pyStr period),
                ("start_date", .pyStr h.Date),
                ("end_date", .pyStr (t.getLastD h).Date),
                ("highest_price", .pyNum (round2 (maxHigh h t))),
                ("lowest_price", .pyNum (round2 (minLow h t))),
                ("current_price_at_period_end", .pyNum (round2 (t.getLastD h).Close))],
       true, true⟩

/-- `HistoricalStockDataTool._run`. -/
def historicalRun (cache : Cache) (now : ℕ) (ticker period : String)
    (prov : Except String (List HistRow)) : RunOut :=
  cachedRun historicalDataTTL (histCacheKey ticker period) cache now
    (historicalBody ticker period prov)

/-! ## The analyze-button ticker-resolution handler (`app.py`) -/

/-- Whether `pat` is a leading segment of `s` (character lists). -/
def charsLeadMatch : List Char → List Char → Bool
  | _, [] => true
  | [], _ :: _ => false
  | c :: cs, p :: ps => decide (c = p) && charsLeadMatch cs ps

/-- Whether `pat` occurs contiguously inside `s` (character lists). -/
def charsContains : List Char → List Char → Bool
  | [], pat => pat.isEmpty
  | c :: cs, pat => charsLeadMatch (c :: cs) pat || charsContains cs pat

/-- Python `pat in s` on strings. -/
def strContains (s pat : String) : Bool :=
  charsContains s.toList pat.toList

/-- The not-found sentinel the identifier agent is told to emit. -/
def notFoundSentinel : String := "Ticker not found"

/-- The handler's rejection test for the LLM fallback result (after
`strip()`): sentinel present, empty, or longer than 7 characters. -/
def fallbackRejects (s : String) : Bool :=
  strContains s notFoundSentinel || s.isEmpty || decide (s.length > 7)

/-- `matches[i].get("1. symbol")` when it is a string. -/
def matchSymbol (m : PyVal) : Option String :=
  match m.get "1. symbol" with
  | some (.pyStr s) => some s
  | _ => none

/-- Render one `dict.get` result inside the selectbox display string
(Python f-string: `None` when absent; only string fields occur). -/
def getStrD (m : PyVal) (k : String) : String :=
  match m.get k with
  | some (.pyStr s) => s
  | _ => "None"

/-- The `(symbol, name, region)` triple shown for one match. -/
def matchTriple (m : PyVal) : String × String × String :=
  (getStrD m "1. symbol", getStrD m "2. name", getStrD m "4. region")

/-- The list value under `"matches"` of the search result. -/
def asMatchList (v : Option PyVal) : List PyVal :=
  match v with
  | some (.pyList xs) => xs
  | _ => []

/-- Outcome of one press of the analyze button, up to ticker
resolution: the session ticker (if any), the disambiguation options
presented (`[]` when none), whether the symbol-search provider was
contacted, whether the LLM fallback crew was invoked, and the search
cache afterwards. -/
structure ResolveOut where
  ticker : Option String
  options : List (String × String × String)
  searchFetched : Bool
  llmInvoked : Bool
  cache : Cache

/-- The ticker-resolution part of the analyze-button handler.

`userSelection` models the entry of the displayed selectbox that the
external UI reports as chosen (the UI layer itself is out of scope);
`llmToken` models `str(identifier_crew.kickoff(...))`.  The branches
mirror the handler: error dict, rate-limit note, matches (single or
multiple), and otherwise the LLM identifier fallback with its
rejection test on the stripped token. -/
def analyzeResolve (cache : Cache) (now : ℕ) (apiKey : Option String) (input : String)
    (prov : Except SearchExc AVResponse) (llmToken : String)
    (userSelection : Option ℕ) : ResolveOut :=
  let o := tickerSearchRun cache now apiKey input prov
  if truthyOpt (o.result.get "error") then
    ⟨none, [], o.fetched, false, o.cache⟩
  else if truthyOpt (o.result.get "api_limit_note") then
    ⟨none, [], o.fetched, false, o.cache⟩
  else if truthyOpt (o.result.get "matches") then
    let ms := asMatchList (o.result.get "matches")
    if ms.length = 1 then
      ⟨(ms.get? 0).bind matchSymbol, [], o.fetched, false, o.cache⟩
    else
      let top := ms.take 5
      ⟨userSelection.bind (fun i => (top.get? i).bind matchSymbol),
       top.map matchTriple, o.fetched, false, o.cache⟩
  else
    let tok := llmToken.trim
    if fallbackRejects tok then
      ⟨none, [], o.fetched, true, o.cache⟩
    else
      ⟨some tok, [], o.fetched, true, o.cache⟩

/-! ## The crew pipeline (`app.py`) -/

/-- The six tasks of `financial_analysis_crew`. -/
inductive TaskId where
  | identifyCompany
  | companyResearch
  | financialAnalysis
  | stockPerformance
  | newsAnalysis
  | reportSynthesis
deriving DecidableEq, Fintype

/-- The `context=[...]` list declared by each `Task`. -/
def taskContext : TaskId → List TaskId
  | .identifyCompany => []
  | .companyResearch => []
  | .financialAnalysis => [.companyResearch]
  | .stockPerformance => [.companyResearch]
  | .newsAnalysis => [.companyResearch]
  | .reportSynthesis =>
      [.companyResearch, .financialAnalysis, .stockPerformance, .newsAnalysis]

/-- The `process=` argument of a `Crew`. -/
inductive ProcessKind where
  | sequential
  | hierarchical
deriving DecidableEq

/-- A crew as configured in the source: its ordered task list and its
process kind. -/
structure CrewSpec where
  tasks : List TaskId
  process : ProcessKind

/-- `financial_analysis_crew`: the six tasks in declared order, run
sequentially. -/
def financialAnalysisCrew : CrewSpec :=
  ⟨[.identifyCompany, .companyResearch, .financialAnalysis,
    .stockPerformance, .newsAnalysis, .reportSynthesis], .sequential⟩

/-- Position of a task in a task list (length when absent). -/
def idxIn : List TaskId → TaskId → ℕ
  | [], _ => 0
  | x :: xs, t => if x = t then 0 else idxIn xs t + 1

/-- Position of a task in the crew's declared order. -/
def taskIdx (t : TaskId) : ℕ :=
  idxIn financialAnalysisCrew.tasks t

/-- One executed stage: its task, the `(dependency, output)` context it
received, and its output. -/
structure TaskRun where
  id : TaskId
  context : List (TaskId × String)
  output : String

/-- Sequential execution: run the remaining tasks in order, giving each
the recorded outputs of its declared context dependencies.  `out` is
the opaque LLM agent (task and context texts to output text). -/
def runCrewAux (out : TaskId → List String → String) :
    List TaskId → List TaskRun → List TaskRun
  | [], acc => acc
  | t :: ts, acc =>
      let ctx := (taskContext t).filterMap
        (fun d => ((acc.find? (fun r => decide (r.id = d))).map (fun r => (d, r.output))))
      runCrewAux out ts (acc ++ [⟨t, ctx, out t (ctx.map Prod.snd)⟩])

/-- `financial_analysis_crew.kickoff` with `Process.sequential`. -/
def runCrew (out : TaskId → List String → String) : List TaskRun :=
  runCrewAux out financialAnalysisCrew.tasks []

/-! ## Result-shape predicates -/

/-- An error object: a dict holding exactly the `"error"` key with a
non-empty message string. -/
def errorShaped (v : PyVal) : Bool :=
  match v with
  | .pyDict [(k, .pyStr s)] => decide (k = "error") && decide (0 < s.length)
  | _ => false

/-- The normalized company-profile mapping: a dict whose keys are
exactly the seven fixed `relevant_info` fields, in order. -/
def infoShaped (v : PyVal) : Bool :=
  match v with
  | .pyDict d => decide (d.map Prod.fst = infoKeyMap.map Prod.fst)
  | _ => false

/-- The normalized financial-statements mapping: a dict whose keys are
exactly the three fixed summary fields, in order. -/
def financialsShaped (v : PyVal) : Bool :=
  match v with
  | .pyDict d => decide (d.map Prod.fst = financialsFieldNames)
  | _ => false

/-- A search-tool result mapping: carries the `"matches"` field. -/
def searchShaped (v : PyVal) : Bool :=
  (v.get "matches").isSome

/-- The seven fixed fields of the historical summary dict. -/
def histFieldNames : List String :=
  ["ticker", "period", "start_date", "end_date", "highest_price", "lowest_price",
   "current_price_at_period_end"]

/-- The normalized historical summary mapping. -/
def histShaped (v : PyVal) : Bool :=
  match v with
  | .pyDict d => decide (d.map Prod.fst = histFieldNames)
  | _ => false

/-- A result that reports a failure or advisory rather than data: it
carries an `"error"`, `"api_limit_note"` or `"message"` key. -/
def errorLike (v : PyVal) : Bool :=
  (v.get "error").isSome || (v.get "api_limit_note").isSome || (v.get "message").isSome

/-- Every value stored in the cache satisfies `P`. -/
def cacheWF (P : PyVal → Bool) (c : Cache) : Prop :=
  ∀ e ∈ c, P e.2.1 = true

/-! ## Cache lemmas -/

theorem cacheLookup_insert_self (c : Cache) (k : String) (v : PyVal) (t now ttl : ℕ) :
    cacheLookup (cacheInsert c k v t) k now ttl =
      if now < t + ttl then some v else none := by
  simp [cacheLookup, cacheInsert, List.find?]

theorem cacheLookup_some_mem (c : Cache) (key : String) (now ttl : ℕ) (v : PyVal)
    (h : cacheLookup c key now ttl = some v) : ∃ e ∈ c, e.2.1 = v := by
  unfold cacheLookup at h
  cases hf : c.find? (fun e => decide (e.1 = key)) with
  | none => rw [hf] at h; cases h
  | some e =>
      rw [hf] at h
      dsimp only at h
      by_cases ht : now < e.2.2 + ttl
      · rw [if_pos ht] at h
        exact ⟨e, List.mem_of_find?_eq_some hf, Option.some.inj h⟩
      · rw [if_neg ht] at h; cases h

theorem cacheLookup_none_mono (c : Cache) (key : String) (now1 now2 ttl : ℕ)
    (h : cacheLookup c key now1 ttl = none) (h12 : now1 ≤ now2) :
    cacheLookup c key now2 ttl = none := by
  unfold cacheLookup at h ⊢
  cases hf : c.find? (fun e => decide (e.1 = key)) with
  | none => rfl
  | some e =>
      rw [hf] at h
      dsimp only at h ⊢
      by_cases ht : now1 < e.2.2 + ttl
      · rw [if_pos ht] at h; cases h
      · rw [if_neg (by omega : ¬ now2 < e.2.2 + ttl)]

theorem cacheWF_insert (P : PyVal → Bool) (c : Cache) (k : String) (v : PyVal) (t : ℕ)
    (hc : cacheWF P c) (hv : P v = true) : cacheWF P (cacheInsert c k v t) := by
  intro e he
  rcases List.mem_cons.mp he with rfl | he
  · exact hv
  · exact hc _ (List.mem_of_mem_filter ((List.take_sublist _ _).mem he))

theorem cachedRun_second_hit (ttl : ℕ) (key : String) (c : Cache) (now1 now2 : ℕ)
    (b b' : BodyOut) (hmiss : cacheLookup c key now1 ttl = none)
    (hstore : b.store = true) (h2 : now2 < now1 + ttl) :
    cachedRun ttl key (cachedRun ttl key c now1 b).cache now2 b' =
      ⟨(cachedRun ttl key c now1 b).result, (cachedRun ttl key c now1 b).cache, false⟩ := by
  have hc1 : (cachedRun ttl key c now1 b).cache = cacheInsert c key b.result now1 := by
    unfold cachedRun; rw [hmiss]; simp [hstore]
  have hr1 : (cachedRun ttl key c now1 b).result = b.result := by
    unfold cachedRun; rw [hmiss]
  rw [hc1, hr1]
  unfold cachedRun
  rw [cacheLookup_insert_self]
  simp [h2]

theorem cachedRun_miss (ttl : ℕ) (key : String) (c : Cache) (now : ℕ) (b : BodyOut)
    (hmiss : cacheLookup c key now ttl = none) :
    cachedRun ttl key c now b =
      ⟨b.result, if b.store then cacheInsert c key b.result now else c, b.fetched⟩ := by
  unfold cachedRun; rw [hmiss]

theorem cachedRun_shape (P : PyVal → Bool) (ttl : ℕ) (key : String) (c : Cache)
    (now : ℕ) (b : BodyOut) (hc : cacheWF P c)
    (hb : (errorShaped b.result || P b.result) = true)
    (hs : b.store = true → P b.result = true) :
    (errorShaped (cachedRun ttl key c now b).result ||
        P (cachedRun ttl key c now b).result) = true ∧
      cacheWF P (cachedRun ttl key c now b).cache := by
  unfold cachedRun
  cases hf : cacheLookup c key now ttl with
  | some v =>
      obtain ⟨e, he, hev⟩ := cacheLookup_some_mem c key now ttl v hf
      have hv : P v = true := hev ▸ hc e he
      exact ⟨by simp [hv], hc⟩
  | none =>
      refine ⟨hb, ?_⟩
      cases hst : b.store with
      | false => simpa using hc
      | true => simpa using cacheWF_insert P c key b.result now hc (hs hst)

theorem cachedRun_error_cache (ttl : ℕ) (key : String) (c : Cache) (now : ℕ)
    (b : BodyOut) (hb : b.store = true → errorLike b.result = false)
    (h : errorLike (cachedRun ttl key c now b).result = true) :
    (cachedRun ttl key c now b).cache = c := by
  unfold cachedRun at h ⊢
  cases hf : cacheLookup c key now ttl with
  | some v => rfl
  | none =>
      rw [hf] at h
      cases hst : b.store with
      | false => simp [hst]
      | true => rw [hb hst] at h; cases h

theorem cachedRun_cache_new (P : PyVal → Bool) (ttl : ℕ) (key : String) (c : Cache)
    (now : ℕ) (b : BodyOut) (hs : b.store = true → P b.result = true) :
    ∀ e ∈ (cachedRun ttl key c now b).cache, e ∈ c ∨ P e.2.1 = true := by
  unfold cachedRun
  cases hf : cacheLookup c key now ttl with
  | some v => exact fun e he => Or.inl he
  | none =>
      cases hst : b.store with
      | false => exact fun e he => Or.inl (by simpa using he)
      | true =>
          intro e he
          simp only [hst, if_true] at he
          rcases List.mem_cons.mp he with rfl | he
          · exact Or.inr (hs hst)
          · exact Or.inl (List.mem_of_mem_filter ((List.take_sublist _ _).mem he))

/-! ## Rounding, lookup and fold lemmas -/

theorem ratFloor_eq_floor (q : ℚ) : ratFloor q = ⌊q⌋ :=
  Rat.floor_def.symm

/-- A value that is exact at two decimal places. -/
def twoDecimal (q : ℚ) : Prop :=
  (q * 100).den = 1

theorem round2_eq_self (q : ℚ) (h : twoDecimal q) : round2 q = q := by
  have hnum : ((q * 100).num : ℚ) = q * 100 := (Rat.den_eq_one_iff (q * 100)).mp h
  have hfl : ratFloor (q * 100) = (q * 100).num := by
    rw [ratFloor_eq_floor]
    conv_lhs => rw [← hnum]
    exact Int.floor_intCast _
  have hfrac : q * 100 - ((ratFloor (q * 100) : ℤ) : ℚ) = 0 := by
    rw [hfl, hnum]; ring
  unfold round2 roundHalfEven
  rw [hfrac]
  norm_num
  rw [hfl, hnum]
  field_simp

theorem dictGet_selectFields (src : List (String × PyVal)) :
    ∀ (keys : List String) (k : String), k ∈ keys →
      dictGet (selectFields src keys) k = some ((dictGet src k).getD .pyNone) := by
  intro keys
  induction keys with
  | nil => intro k hk; cases hk
  | cons k' ks ih =>
      intro k hk
      by_cases h : k' = k
      · subst h
        simp [selectFields, dictGet, List.find?]
      · have hk' : k ∈ ks := by
          rcases List.mem_cons.mp hk with h' | h'
          · exact absurd h'.symm h
          · exact h'
        have := ih k hk'
        simpa [selectFields, dictGet, List.find?, h] using this

theorem selectFields_keys (src : List (String × PyVal)) (keys : List String) :
    (selectFields src keys).map Prod.fst = keys := by
  simp [selectFields, List.map_map, Function.comp_def]

theorem dictGet_infoPairs (info : List (String × PyVal)) (p : String × String)
    (hp : p ∈ infoKeyMap) :
    dictGet (infoKeyMap.map (fun q => (q.1, (dictGet info q.2).getD .pyNone))) p.1 =
      some ((dictGet info p.2).getD .pyNone) := by
  fin_cases hp <;> simp [infoKeyMap, dictGet, List.find?]

theorem foldlMax_le (f : HistRow → ℚ) :
    ∀ (t : List HistRow) (a : ℚ),
      a ≤ t.foldl (fun acc r => max acc (f r)) a ∧
        ∀ r ∈ t, f r ≤ t.foldl (fun acc r => max acc (f r)) a := by
  intro t
  induction t with
  | nil => simp
  | cons x xs ih =>
      intro a
      constructor
      · calc a ≤ max a (f x) := le_max_left _ _
          _ ≤ xs.foldl (fun acc r => max acc (f r)) (max a (f x)) := (ih (max a (f x))).1
      · intro r hr
        rcases List.mem_cons.mp hr with rfl | hr
        · calc f r ≤ max a (f r) := le_max_right _ _
            _ ≤ xs.foldl (fun acc r => max acc (f r)) (max a (f r)) := (ih _).1
        · exact (ih (max a (f x))).2 r hr

theorem foldlMax_mem (f : HistRow → ℚ) :
    ∀ (t : List HistRow) (a : ℚ),
      t.foldl (fun acc r => max acc (f r)) a = a ∨
        ∃ r ∈ t, t.foldl (fun acc r => max acc (f r)) a = f r := by
  intro t
  induction t with
  | nil => simp
  | cons x xs ih =>
      intro a
      rcases ih (max a (f x)) with h | ⟨r, hr, h⟩
      · rcases max_choice a (f x) with h' | h'
        · left; rw [List.foldl_cons, h, h']
        · right; exact ⟨x, List.mem_cons_self _ _, by rw [List.foldl_cons, h, h']⟩
      · right; exact ⟨r, List.mem_cons_of_mem _ hr, by rw [List.foldl_cons]; exact h⟩

theorem foldlMin_le (f : HistRow → ℚ) :
    ∀ (t : List HistRow) (a : ℚ),
      t.foldl (fun acc r => min acc (f r)) a ≤ a ∧
        ∀ r ∈ t, t.foldl (fun acc r => min acc (f r)) a ≤ f r := by
  intro t
  induction t with
  | nil => simp
  | cons x xs ih =>
      intro a
      constructor
      · calc xs.foldl (fun acc r => min acc (f r)) (min a (f x)) ≤ min a (f x) :=
            (ih (min a (f x))).1
          _ ≤ a := min_le_left _ _
      · intro r hr
        rcases List.mem_cons.mp hr with rfl | hr
        · calc xs.foldl (fun acc r => min acc (f r)) (min a (f r)) ≤ min a (f r) := (ih _).1
            _ ≤ f r := min_le_right _ _
        · exact (ih (min a (f x))).2 r hr

theorem foldlMin_mem (f : HistRow → ℚ) :
    ∀ (t : List HistRow) (a : ℚ),
      t.foldl (fun acc r => min acc (f r)) a = a ∨
        ∃ r ∈ t, t.foldl (fun acc r => min acc (f r)) a = f r := by
  intro t
  induction t with
  | nil => simp
  | cons x xs ih =>
      intro a
      rcases ih (min a (f x)) with h | ⟨r, hr, h⟩
      · rcases min_choice a (f x) with h' | h'
        · left; rw [List.foldl_cons, h, h']
        · right; exact ⟨x, List.mem_cons_self _ _, by rw [List.foldl_cons, h, h']⟩
      · right; exact ⟨r, List.mem_cons_of_mem _ hr, by rw [List.foldl_cons]; exact h⟩

theorem strLength_pos_left (a b : String) (h : 0 < a.length) : 0 < (a ++ b).length := by
  rw [String.length_append]; omega

theorem strLength_pos_right (a b : String) (h : 0 < b.length) : 0 < (a ++ b).length := by
  rw [String.length_append]; omega

/-! ## Body-level shape lemmas -/

theorem errorShaped_errDict (msg : String) (h : 0 < msg.length) :
    errorShaped (errDict msg) = true := by
  simp [errorShaped, errDict, h]

theorem companyInfoBody_shape (ticker : String)
    (prov : Except String (List (String × PyVal))) :
    (errorShaped (companyInfoBody ticker prov).result ||
        infoShaped (companyInfoBody ticker prov).result) = true ∧
      ((companyInfoBody ticker prov).store = true →
        infoShaped (companyInfoBody ticker prov).result = true) ∧
      ((companyInfoBody ticker prov).store = true →
        errorLike (companyInfoBody ticker prov).result = false) := by
  cases prov with
  | error e =>
      refine ⟨?_, ?_, ?_⟩
      · have := errorShaped_errDict ("Failed to fetch company info for " ++ ticker ++ ": " ++ e)
          (strLength_pos_left _ _ (strLength_pos_right _ _ (by decide)))
        simp [companyInfoBody, this]
      · intro h; simp [companyInfoBody] at h
      · intro h; simp [companyInfoBody] at h
  | ok info =>
      have hshape : infoShaped (companyInfoBody ticker (.ok info)).result = true := by
        simp [companyInfoBody, infoShaped, List.map_map, Function.comp_def]
      refine ⟨by simp [hshape], fun _ => hshape, fun _ => ?_⟩
      simp [companyInfoBody, errorLike, PyVal.get, dictGet, infoKeyMap, List.find?]

theorem companyFinancialsBody_shape (ticker : String) (prov : Except String Statements) :
    (errorShaped (companyFinancialsBody ticker prov).result ||
        financialsShaped (companyFinancialsBody ticker prov).result) = true ∧
      ((companyFinancialsBody ticker prov).store = true →
        financialsShaped (companyFinancialsBody ticker prov).result = true) ∧
      ((companyFinancialsBody ticker prov).store = true →
        errorLike (companyFinancialsBody ticker prov).result = false) := by
  cases prov with
  | error e =>
      refine ⟨?_, ?_, ?_⟩
      · have := errorShaped_errDict
          ("Failed to fetch financial statements for " ++ ticker ++ ": " ++ e)
          (strLength_pos_left _ _ (strLength_pos_right _ _ (by decide)))
        simp [companyFinancialsBody, this]
      · intro h; simp [companyFinancialsBody] at h
      · intro h; simp [companyFinancialsBody] at h
  | ok s =>
      have hshape : financialsShaped (companyFinancialsBody ticker (.ok s)).result = true := by
        simp [companyFinancialsBody, financialsShaped, financialsFieldNames]
      refine ⟨by simp [hshape], fun _ => hshape, fun _ => ?_⟩
      simp [companyFinancialsBody, errorLike, PyVal.get, dictGet, List.find?]

theorem tickerSearchBody_shape (apiKey : Option String) (companyName : String)
    (prov : Except SearchExc AVResponse) :
    (errorShaped (tickerSearchBody apiKey companyName prov).result ||
        searchShaped (tickerSearchBody apiKey companyName prov).result) = true ∧
      ((tickerSearchBody apiKey companyName prov).store = true →
        searchShaped (tickerSearchBody apiKey companyName prov).result = true) ∧
      ((tickerSearchBody apiKey companyName prov).store = true →
        errorLike (tickerSearchBody apiKey companyName prov).result = false) := by
  cases apiKey with
  | none =>
      refine ⟨?_, ?_, ?_⟩
      · have := errorShaped_errDict
          "Alpha Vantage API key not found. Please set ALPHA_VANTAGE_API_KEY environment variable."
          (by decide)
        simp [tickerSearchBody, this]
      · intro h; simp [tickerSearchBody] at h
      · intro h; simp [tickerSearchBody] at h
  | some key =>
      cases prov with
      | error exc =>
          cases exc with
          | request e =>
              refine ⟨?_, ?_, ?_⟩
              · have := errorShaped_errDict ("API request failed: " ++ e)
                  (strLength_pos_left _ _ (by decide))
                simp [tickerSearchBody, this]
              · intro h; simp [tickerSearchBody] at h
              · intro h; simp [tickerSearchBody] at h
          | other e =>
              refine ⟨?_, ?_, ?_⟩
              · have := errorShaped_errDict
                  ("Failed to search for ticker for " ++ companyName ++ ": " ++ e)
                  (strLength_pos_left _ _ (strLength_pos_right _ _ (by decide)))
                simp [tickerSearchBody, this]
              · intro h; simp [tickerSearchBody] at h
              · intro h; simp [tickerSearchBody] at h
      | ok data =>
          cases hem : data.errorMessage with
          | some m =>
              refine ⟨?_, ?_, ?_⟩
              · have := errorShaped_errDict ("Alpha Vantage API error: " ++ m)
                  (strLength_pos_left _ _ (by decide))
                simp [tickerSearchBody, hem, this]
              · intro h; simp [tickerSearchBody, hem] at h
              · intro h; simp [tickerSearchBody, hem] at h
          | none =>
              cases hn : data.note with
              | some n =>
                  refine ⟨?_, ?_, ?_⟩
                  · simp [tickerSearchBody, hem, hn, searchShaped, PyVal.get, dictGet,
                      List.find?]
                  · intro h; simp [tickerSearchBody, hem, hn] at h
                  · intro h; simp [tickerSearchBody, hem, hn] at h
              | none =>
                  cases hb : data.bestMatches.getD [] with
                  | nil =>
                      refine ⟨?_, ?_, ?_⟩
                      · simp [tickerSearchBody, hem, hn, hb, searchShaped, PyVal.get,
                          dictGet, List.find?]
                      · intro h; simp [tickerSearchBody, hem, hn, hb] at h
                      · intro h; simp [tickerSearchBody, hem, hn, hb] at h
                  | cons m rest =>
                      refine ⟨?_, ?_, ?_⟩
                      · simp [tickerSearchBody, hem, hn, hb, searchShaped, PyVal.get,
                          dictGet, List.find?]
                      · intro _
                        simp [tickerSearchBody, hem, hn, hb, searchShaped, PyVal.get,
                          dictGet, List.find?]
                      · intro _
                        simp [tickerSearchBody, hem, hn, hb, errorLike, PyVal.get,
                          dictGet, List.find?]

theorem historicalBody_shape (ticker period : String)
    (prov : Except String (List HistRow)) :
    (errorShaped (historicalBody ticker period prov).result ||
        histShaped (historicalBody ticker period prov).result) = true ∧
      ((historicalBody ticker period prov).store = true →
        histShaped (historicalBody ticker period prov).result = true) ∧
      ((historicalBody ticker period prov).store = true →
        errorLike (historicalBody ticker period prov).result = false) := by
  cases prov with
  | error e =>
      refine ⟨?_, ?_, ?_⟩
      · have := errorShaped_errDict
          ("Failed to fetch historical stock data for " ++ ticker ++ ": " ++ e)
          (strLength_pos_left _ _ (strLength_pos_right _ _ (by decide)))
        simp [historicalBody, this]
      · intro h; simp [historicalBody] at h
      · intro h; simp [historicalBody] at h
  | ok rows =>
      cases rows with
      | nil =>
          refine ⟨?_, ?_, ?_⟩
          · have := errorShaped_errDict
              ("No historical data found for " ++ ticker ++ " for period " ++ period ++ ".")
              (strLength_pos_right _ _ (by decide))
            simp [historicalBody, this]
          · intro h; simp [historicalBody] at h
          · intro h; simp [historicalBody] at h
      | cons h t =>
          have hshape : histShaped (historicalBody ticker period (.ok (h :: t))).result = true := by
            simp [historicalBody, histShaped, histFieldNames]
          refine ⟨by simp [hshape], fun _ => hshape, fun _ => ?_⟩
          simp [historicalBody, errorLike, PyVal.get, dictGet, List.find?]

/-! ## Claims -/

/-- Claim C6: the pipeline is the fixed sequence of six stages in
declared order (ticker identification, company research,
financial-ratio analysis, stock performance, news sentiment, report
synthesis), run sequentially; every declared context dependency is an
earlier stage, and in the sequential execution every stage receives
exactly the outputs of its declared dependencies before it begins. -/
theorem claim6_pipeline_order :
    financialAnalysisCrew.tasks =
      [TaskId.identifyCompany, TaskId.companyResearch, TaskId.financialAnalysis,
       TaskId.stockPerformance, TaskId.newsAnalysis, TaskId.reportSynthesis] ∧
      financialAnalysisCrew.process = ProcessKind.sequential ∧
      (∀ t d, d ∈ taskContext t → taskIdx d < taskIdx t) ∧
      (∀ out, (runCrew out).map TaskRun.id = financialAnalysisCrew.tasks ∧
        ∀ r ∈ runCrew out, r.context.map Prod.fst = taskContext r.id) := by
  refine ⟨rfl, rfl, by decide, fun out => ⟨rfl, ?_⟩⟩
  intro r hr
  simp [runCrew, runCrewAux, financialAnalysisCrew, taskContext, List.find?] at hr
  rcases hr with h | h | h | h | h | h <;> subst h <;> rfl

/-- Witness for C6 at concrete inputs: the financial-analysis stage
depends on company research, which comes earlier, and the sequential
run visits the declared task list. -/
theorem claim6_witness :
    TaskId.companyResearch ∈ taskContext TaskId.financialAnalysis ∧
      taskIdx TaskId.companyResearch < taskIdx TaskId.financialAnalysis ∧
      (runCrew (fun _ _ => "output")).map TaskRun.id = financialAnalysisCrew.tasks :=
  ⟨by decide, claim6_pipeline_order.2.2.1 TaskId.financialAnalysis TaskId.companyResearch
      (by decide),
   (claim6_pipeline_order.2.2.2 (fun _ _ => "output")).1⟩

/-- Claim C8: a token coming back from the LLM fallback identification
is rejected (treated as resolution failure) exactly when it is longer
than 7 characters, contains the sentinel "Ticker not found", or is
empty; otherwise it is accepted as the ticker. -/
theorem claim8_fallback_token_rule (s : String) :
    fallbackRejects s = true ↔
      (7 < s.length ∨ strContains s notFoundSentinel = true ∨ s = "") := by
  unfold fallbackRejects
  simp [Bool.or_eq_true, decide_eq_true_eq, String.isEmpty_iff]
  tauto

/-- Witness for C8: a sentinel-bearing token is rejected and a short
clean token is accepted. -/
theorem claim8_witness :
    fallbackRejects "Ticker not found for Foo Corp" = true ∧
      fallbackRejects "MSFT" = false :=
  ⟨(claim8_fallback_token_rule "Ticker not found for Foo Corp").mpr
      (Or.inr (Or.inl (by decide))),
   Bool.eq_false_iff.mpr (fun ht => by
     rcases (claim8_fallback_token_rule "MSFT").mp ht with h' | h' | h' <;>
       exact absurd h' (by decide))⟩

/-- Claim C9: the profile, financials and historical caches have
time-to-live 1800 s, the search cache 3600 s, each cache is bounded by
100 entries, and the historical cache key combines ticker and period
(injective in the period for a ticker and in the ticker for a period)
while the other tools key by the ticker or keyword alone. -/
theorem claim9_cache_config :
    companyInfoTTL = 1800 ∧ companyFinancialsTTL = 1800 ∧ historicalDataTTL = 1800 ∧
      tickerSearchTTL = 3600 ∧ cacheMaxsize = 100 ∧
      (∀ c k v t, (cacheInsert c k v t).length ≤ cacheMaxsize) ∧
      (∀ t p, histCacheKey t p = t ++ "_" ++ p) ∧
      (∀ t p p', histCacheKey t p = histCacheKey t p' ↔ p = p') ∧
      (∀ t t' p, histCacheKey t p = histCacheKey t' p → t = t') := by
  refine ⟨rfl, rfl, rfl, rfl, rfl, ?_, fun t p => rfl, ?_, ?_⟩
  · intro c k v t
    simp [cacheInsert, cacheMaxsize, List.length_take]
  · intro t p p'
    constructor
    · intro h
      have hd := congrArg String.data h
      simp [histCacheKey, String.data_append] at hd
      exact String.ext hd
    · intro h; rw [h]
  · intro t t' p h
    have hd := congrArg String.data h
    simp [histCacheKey, String.data_append] at hd
    exact String.ext hd

/-- Witness for C9 at concrete inputs. -/
theorem claim9_witness :
    (cacheInsert [] "AAPL" (errDict "boom") 0).length ≤ cacheMaxsize ∧
      histCacheKey "AAPL" "1y" = "AAPL" ++ "_" ++ "1y" ∧
      (histCacheKey "AAPL" "1y" = histCacheKey "AAPL" "6mo" ↔ ("1y" : String) = "6mo") ∧
      (histCacheKey "AAPL" "1y" = histCacheKey "MSFT" "1y" → ("AAPL" : String) = "MSFT") :=
  ⟨claim9_cache_config.2.2.2.2.2.1 [] "AAPL" (errDict "boom") 0,
   claim9_cache_config.2.2.2.2.2.2.1 "AAPL" "1y",
   claim9_cache_config.2.2.2.2.2.2.2.1 "AAPL" "1y" "6mo",
   claim9_cache_config.2.2.2.2.2.2.2.2 "AAPL" "MSFT" "1y"⟩

/-- Claim C1: for each of the four adapters, when a first `_run` call
misses the cache, succeeds and stores its result, a second call with
the same key before the time-to-live elapses returns exactly the stored
result, leaves the cache unchanged, and does not contact the provider
again (whatever the provider would answer the second time). -/
theorem claim1_cache_hit_within_ttl :
    (∀ cache now1 now2 ticker info prov2,
        cacheLookup cache ticker now1 companyInfoTTL = none →
        now2 < now1 + companyInfoTTL →
        companyInfoRun (companyInfoRun cache now1 ticker (.ok info)).cache
            now2 ticker prov2 =
          ⟨(companyInfoRun cache now1 ticker (.ok info)).result,
           (companyInfoRun cache now1 ticker (.ok info)).cache, false⟩) ∧
      (∀ cache now1 now2 ticker stmts prov2,
        cacheLookup cache ticker now1 companyFinancialsTTL = none →
        now2 < now1 + companyFinancialsTTL →
        companyFinancialsRun (companyFinancialsRun cache now1 ticker (.ok stmts)).cache
            now2 ticker prov2 =
          ⟨(companyFinancialsRun cache now1 ticker (.ok stmts)).result,
           (companyFinancialsRun cache now1 ticker (.ok stmts)).cache, false⟩) ∧
      (∀ cache now1 now2 key key2 name m rest prov2,
        cacheLookup cache name now1 tickerSearchTTL = none →
        now2 < now1 + tickerSearchTTL →
        tickerSearchRun (tickerSearchRun cache now1 (some key) name
              (.ok ⟨none, none, some (m :: rest)⟩)).cache now2 key2 name prov2 =
          ⟨(tickerSearchRun cache now1 (some key) name
              (.ok ⟨none, none, some (m :: rest)⟩)).result,
           (tickerSearchRun cache now1 (some key) name
              (.ok ⟨none, none, some (m :: rest)⟩)).cache, false⟩) ∧
      (∀ cache now1 now2 ticker period h t prov2,
        cacheLookup cache (histCacheKey ticker period) now1 historicalDataTTL = none →
        now2 < now1 + historicalDataTTL →
        historicalRun (historicalRun cache now1 ticker period (.ok (h :: t))).cache
            now2 ticker period prov2 =
          ⟨(historicalRun cache now1 ticker period (.ok (h :: t))).result,
           (historicalRun cache now1 ticker period (.ok (h :: t))).cache, false⟩) := by
  refine ⟨?_, ?_, ?_, ?_⟩
  · intro cache now1 now2 ticker info prov2 hmiss h2
    exact cachedRun_second_hit companyInfoTTL ticker cache now1 now2
      (companyInfoBody ticker (.ok info)) (companyInfoBody ticker prov2) hmiss rfl h2
  · intro cache now1 now2 ticker stmts prov2 hmiss h2
    exact cachedRun_second_hit companyFinancialsTTL ticker cache now1 now2
      (companyFinancialsBody ticker (.ok stmts)) (companyFinancialsBody ticker prov2)
      hmiss rfl h2
  · intro cache now1 now2 key key2 name m rest prov2 hmiss h2
    exact cachedRun_second_hit tickerSearchTTL name cache now1 now2
      (tickerSearchBody (some key) name (.ok ⟨none, none, some (m :: rest)⟩))
      (tickerSearchBody key2 name prov2) hmiss rfl h2
  · intro cache now1 now2 ticker period h t prov2 hmiss h2
    exact cachedRun_second_hit historicalDataTTL (histCacheKey ticker period) cache
      now1 now2 (historicalBody ticker period (.ok (h :: t)))
      (historicalBody ticker period prov2) hmiss rfl h2

/-- Witness for C1: a concrete first call at time 0 and second call at
time 100, for the profile adapter and the search adapter. -/
theorem claim1_witness :
    companyInfoRun (companyInfoRun [] 0 "AAPL"
        (.ok [("longName", PyVal.pyStr "Apple Inc.")])).cache 100 "AAPL" (.error "down") =
      ⟨(companyInfoRun [] 0 "AAPL" (.ok [("longName", PyVal.pyStr "Apple Inc.")])).result,
       (companyInfoRun [] 0 "AAPL" (.ok [("longName", PyVal.pyStr "Apple Inc.")])).cache,
       false⟩ ∧
      tickerSearchRun (tickerSearchRun [] 0 (some "k") "Apple"
          (.ok ⟨none, none, some [⟨"AAPL", "Apple Inc", "United States"⟩]⟩)).cache
          100 (some "k") "Apple" (.error (.request "down")) =
        ⟨(tickerSearchRun [] 0 (some "k") "Apple"
            (.ok ⟨none, none, some [⟨"AAPL", "Apple Inc", "United States"⟩]⟩)).result,
         (tickerSearchRun [] 0 (some "k") "Apple"
            (.ok ⟨none, none, some [⟨"AAPL", "Apple Inc", "United States"⟩]⟩)).cache,
         false⟩ :=
  ⟨claim1_cache_hit_within_ttl.1 [] 0 100 "AAPL"
      [("longName", PyVal.pyStr "Apple Inc.")] (.error "down") rfl (by decide),
   claim1_cache_hit_within_ttl.2.2.1 [] 0 100 "k" (some "k") "Apple"
      ⟨"AAPL", "Apple Inc", "United States"⟩ [] (.error (.request "down")) rfl (by decide)⟩

/-- Claim C2: each adapter's `_run` is a total function of the provider
outcome (every raised provider exception is absorbed by the
`try/except`), and - provided every cached value is a normalized result
for that adapter - it returns either an error dict with a non-empty
message or the adapter's normalized field mapping, and preserves that
cache property. -/
theorem claim2_error_objects :
    (∀ cache now ticker prov, cacheWF infoShaped cache →
        (errorShaped (companyInfoRun cache now ticker prov).result ||
            infoShaped (companyInfoRun cache now ticker prov).result) = true ∧
          cacheWF infoShaped (companyInfoRun cache now ticker prov).cache) ∧
      (∀ cache now ticker prov, cacheWF financialsShaped cache →
        (errorShaped (companyFinancialsRun cache now ticker prov).result ||
            financialsShaped (companyFinancialsRun cache now ticker prov).result) = true ∧
          cacheWF financialsShaped (companyFinancialsRun cache now ticker prov).cache) ∧
      (∀ cache now apiKey name prov, cacheWF searchShaped cache →
        (errorShaped (tickerSearchRun cache now apiKey name prov).result ||
            searchShaped (tickerSearchRun cache now apiKey name prov).result) = true ∧
          cacheWF searchShaped (tickerSearchRun cache now apiKey name prov).cache) ∧
      (∀ cache now ticker period prov, cacheWF histShaped cache →
        (errorShaped (historicalRun cache now ticker period prov).result ||
            histShaped (historicalRun cache now ticker period prov).result) = true ∧
          cacheWF histShaped (historicalRun cache now ticker period prov).cache) := by
  refine ⟨?_, ?_, ?_, ?_⟩
  · intro cache now ticker prov hc
    exact cachedRun_shape infoShaped companyInfoTTL ticker cache now
      (companyInfoBody ticker prov) hc (companyInfoBody_shape ticker prov).1
      (companyInfoBody_shape ticker prov).2.1
  · intro cache now ticker prov hc
    exact cachedRun_shape financialsShaped companyFinancialsTTL ticker cache now
      (companyFinancialsBody ticker prov) hc (companyFinancialsBody_shape ticker prov).1
      (companyFinancialsBody_shape ticker prov).2.1
  · intro cache now apiKey name prov hc
    exact cachedRun_shape searchShaped tickerSearchTTL name cache now
      (tickerSearchBody apiKey name prov) hc (tickerSearchBody_shape apiKey name prov).1
      (tickerSearchBody_shape apiKey name prov).2.1
  · intro cache now ticker period prov hc
    exact cachedRun_shape histShaped historicalDataTTL (histCacheKey ticker period) cache
      now (historicalBody ticker period prov) hc (historicalBody_shape ticker period prov).1
      (historicalBody_shape ticker period prov).2.1

/-- Witness for C2: a raised provider exception on an empty cache yields
an error dict for the profile adapter, and a missing API key yields an
error dict for the search adapter. -/
theorem claim2_witness :
    (errorShaped (companyInfoRun [] 0 "AAPL" (.error "connection refused")).result ||
        infoShaped (companyInfoRun [] 0 "AAPL" (.error "connection refused")).result) =
        true ∧
      (errorShaped (tickerSearchRun [] 0 none "Apple"
            (.ok ⟨none, none, none⟩)).result ||
          searchShaped (tickerSearchRun [] 0 none "Apple"
            (.ok ⟨none, none, none⟩)).result) = true :=
  ⟨(claim2_error_objects.1 [] 0 "AAPL" (.error "connection refused")
      (by simp [cacheWF])).1,
   (claim2_error_objects.2.2.1 [] 0 none "Apple" (.ok ⟨none, none, none⟩)
      (by simp [cacheWF])).1⟩

/-! ## Per-body fetch lemmas and the error-refetch lemma -/

theorem companyInfoBody_fetched (ticker : String)
    (prov : Except String (List (String × PyVal))) :
    (companyInfoBody ticker prov).fetched = true := by
  cases prov <;> rfl

theorem companyFinancialsBody_fetched (ticker : String) (prov : Except String Statements) :
    (companyFinancialsBody ticker prov).fetched = true := by
  cases prov <;> rfl

theorem historicalBody_fetched (ticker period : String)
    (prov : Except String (List HistRow)) :
    (historicalBody ticker period prov).fetched = true := by
  cases prov with
  | error e => rfl
  | ok rows => cases rows <;> rfl

theorem tickerSearchBody_fetched (key companyName : String)
    (prov : Except SearchExc AVResponse) :
    (tickerSearchBody (some key) companyName prov).fetched = true := by
  cases prov with
  | error exc => cases exc <;> rfl
  | ok data =>
      obtain ⟨em, note, bm⟩ := data
      cases em with
      | some m => rfl
      | none =>
          cases note with
          | some n => rfl
          | none =>
              cases bm with
              | none => rfl
              | some l => cases l <;> rfl

theorem cachedRun_error_refetch (ttl : ℕ) (key : String) (c : Cache) (now1 now2 : ℕ)
    (b b' : BodyOut) (hb : b.store = true → errorLike b.result = false)
    (hmiss : cacheLookup c key now1 ttl = none)
    (herr : errorLike (cachedRun ttl key c now1 b).result = true)
    (h12 : now1 ≤ now2) :
    (cachedRun ttl key (cachedRun ttl key c now1 b).cache now2 b').fetched = b'.fetched := by
  have hcache := cachedRun_error_cache ttl key c now1 b hb herr
  rw [hcache]
  rw [cachedRun_miss ttl key c now2 b' (cacheLookup_none_mono c key now1 now2 ttl hmiss h12)]

/-- Claim C10: an error-bearing result (error dict, rate-limit note, or
no-matches message) is never stored: the cache is left exactly as it
was; every cache entry after a call is either an old entry or a
normalized success result; and after a miss that produced an
error-bearing result, a later call with the same key contacts the
provider again (for the search tool: when the API key is configured). -/
theorem claim10_errors_not_cached :
    (∀ cache now ticker prov,
        errorLike (companyInfoRun cache now ticker prov).result = true →
        (companyInfoRun cache now ticker prov).cache = cache) ∧
      (∀ cache now ticker prov,
        errorLike (companyFinancialsRun cache now ticker prov).result = true →
        (companyFinancialsRun cache now ticker prov).cache = cache) ∧
      (∀ cache now apiKey name prov,
        errorLike (tickerSearchRun cache now apiKey name prov).result = true →
        (tickerSearchRun cache now apiKey name prov).cache = cache) ∧
      (∀ cache now ticker period prov,
        errorLike (historicalRun cache now ticker period prov).result = true →
        (historicalRun cache now ticker period prov).cache = cache) ∧
      (∀ cache now ticker prov e, e ∈ (companyInfoRun cache now ticker prov).cache →
        e ∈ cache ∨ infoShaped e.2.1 = true) ∧
      (∀ cache now ticker prov e, e ∈ (companyFinancialsRun cache now ticker prov).cache →
        e ∈ cache ∨ financialsShaped e.2.1 = true) ∧
      (∀ cache now apiKey name prov e, e ∈ (tickerSearchRun cache now apiKey name prov).cache →
        e ∈ cache ∨ searchShaped e.2.1 = true) ∧
      (∀ cache now ticker period prov e,
        e ∈ (historicalRun cache now ticker period prov).cache →
        e ∈ cache ∨ histShaped e.2.1 = true) ∧
      (∀ cache now1 now2 ticker prov prov2,
        cacheLookup cache ticker now1 companyInfoTTL = none →
        errorLike (companyInfoRun cache now1 ticker prov).result = true → now1 ≤ now2 →
        (companyInfoRun (companyInfoRun cache now1 ticker prov).cache
          now2 ticker prov2).fetched = true) ∧
      (∀ cache now1 now2 ticker prov prov2,
        cacheLookup cache ticker now1 companyFinancialsTTL = none →
        errorLike (companyFinancialsRun cache now1 ticker prov).result = true →
        now1 ≤ now2 →
        (companyFinancialsRun (companyFinancialsRun cache now1 ticker prov).cache
          now2 ticker prov2).fetched = true) ∧
      (∀ cache now1 now2 apiKey name prov key2 prov2,
        cacheLookup cache name now1 tickerSearchTTL = none →
        errorLike (tickerSearchRun cache now1 apiKey name prov).result = true →
        now1 ≤ now2 →
        (tickerSearchRun (tickerSearchRun cache now1 apiKey name prov).cache
          now2 (some key2) name prov2).fetched = true) ∧
      (∀ cache now1 now2 ticker period prov prov2,
        cacheLookup cache (histCacheKey ticker period) now1 historicalDataTTL = none →
        errorLike (historicalRun cache now1 ticker period prov).result = true →
        now1 ≤ now2 →
        (historicalRun (historicalRun cache now1 ticker period prov).cache
          now2 ticker period prov2).fetched = true) := by
  refine ⟨?_, ?_, ?_, ?_, ?_, ?_, ?_, ?_, ?_, ?_, ?_, ?_⟩
  · intro cache now ticker prov herr
    exact cachedRun_error_cache companyInfoTTL ticker cache now
      (companyInfoBody ticker prov) (companyInfoBody_shape ticker prov).2.2 herr
  · intro cache now ticker prov herr
    exact cachedRun_error_cache companyFinancialsTTL ticker cache now
      (companyFinancialsBody ticker prov) (companyFinancialsBody_shape ticker prov).2.2 herr
  · intro cache now apiKey name prov herr
    exact cachedRun_error_cache tickerSearchTTL name cache now
      (tickerSearchBody apiKey name prov) (tickerSearchBody_shape apiKey name prov).2.2 herr
  · intro cache now ticker period prov herr
    exact cachedRun_error_cache historicalDataTTL (histCacheKey ticker period) cache now
      (historicalBody ticker period prov) (historicalBody_shape ticker period prov).2.2 herr
  · intro cache now ticker prov e he
    exact cachedRun_cache_new infoShaped companyInfoTTL ticker cache now
      (companyInfoBody ticker prov) (companyInfoBody_shape ticker prov).2.1 e he
  · intro cache now ticker prov e he
    exact cachedRun_cache_new financialsShaped companyFinancialsTTL ticker cache now
      (companyFinancialsBody ticker prov) (companyFinancialsBody_shape ticker prov).2.1 e he
  · intro cache now apiKey name prov e he
    exact cachedRun_cache_new searchShaped tickerSearchTTL name cache now
      (tickerSearchBody apiKey name prov) (tickerSearchBody_shape apiKey name prov).2.1 e he
  · intro cache now ticker period prov e he
    exact cachedRun_cache_new histShaped historicalDataTTL (histCacheKey ticker period)
      cache now (historicalBody ticker period prov)
      (historicalBody_shape ticker period prov).2.1 e he
  · intro cache now1 now2 ticker prov prov2 hmiss herr h12
    exact (cachedRun_error_refetch companyInfoTTL ticker cache now1 now2
      (companyInfoBody ticker prov) (companyInfoBody ticker prov2)
      (companyInfoBody_shape ticker prov).2.2 hmiss herr h12).trans
      (companyInfoBody_fetched ticker prov2)
  · intro cache now1 now2 ticker prov prov2 hmiss herr h12
    exact (cachedRun_error_refetch companyFinancialsTTL ticker cache now1 now2
      (companyFinancialsBody ticker prov) (companyFinancialsBody ticker prov2)
      (companyFinancialsBody_shape ticker prov).2.2 hmiss herr h12).trans
      (companyFinancialsBody_fetched ticker prov2)
  · intro cache now1 now2 apiKey name prov key2 prov2 hmiss herr h12
    exact (cachedRun_error_refetch tickerSearchTTL name cache now1 now2
      (tickerSearchBody apiKey name prov) (tickerSearchBody (some key2) name prov2)
      (tickerSearchBody_shape apiKey name prov).2.2 hmiss herr h12).trans
      (tickerSearchBody_fetched key2 name prov2)
  · intro cache now1 now2 ticker period prov prov2 hmiss herr h12
    exact (cachedRun_error_refetch historicalDataTTL (histCacheKey ticker period) cache
      now1 now2 (historicalBody ticker period prov) (historicalBody ticker period prov2)
      (historicalBody_shape ticker period prov).2.2 hmiss herr h12).trans
      (historicalBody_fetched ticker period prov2)

/-- Witness for C10: a failed profile fetch on an empty cache leaves it
empty and a retry fetches again; a rate-limit note from the search
provider is likewise not stored. -/
theorem claim10_witness :
    (companyInfoRun [] 0 "AAPL" (.error "boom")).cache = [] ∧
      (companyInfoRun (companyInfoRun [] 0 "AAPL" (.error "boom")).cache
        60 "AAPL" (.error "boom")).fetched = true ∧
      (tickerSearchRun [] 0 (some "k") "Apple"
        (.ok ⟨none, some "rate limited", none⟩)).cache = [] :=
  ⟨claim10_errors_not_cached.1 [] 0 "AAPL" (.error "boom") rfl,
   claim10_errors_not_cached.2.2.2.2.2.2.2.2.1 [] 0 60 "AAPL" (.error "boom")
     (.error "boom") rfl rfl (by decide),
   claim10_errors_not_cached.2.2.1 [] 0 (some "k") "Apple"
     (.ok ⟨none, some "rate limited", none⟩) rfl⟩

/-- The facts claim C5 asserts about one statement summary slot: an
empty statement yields the explicit `"Not available"` marker, a
non-empty one yields a dict over exactly the fixed keys in which every
key the provider column lacks is bound to the explicit `None` marker. -/
def summaryFieldFacts (cols : StatementCols) (keys : List String) (v : Option PyVal) :
    Prop :=
  (cols = [] → v = some (.pyStr "Not available")) ∧
  (∀ c rest, cols = c :: rest →
    v = some (.pyDict (selectFields c keys)) ∧
    ∀ k ∈ keys, dictGet c k = none →
      dictGet (selectFields c keys) k = some .pyNone)

theorem summaryFacts_of (cols : StatementCols) (keys : List String) :
    summaryFieldFacts cols keys
      (some (summarizeStatement (getLatestAnnualData cols) keys)) := by
  constructor
  · intro h; subst h; rfl
  · intro c rest h; subst h
    refine ⟨rfl, ?_⟩
    intro k hk hnone
    rw [dictGet_selectFields c keys k hk, hnone]
    rfl

/-- Claim C5: on a successful provider fetch, the profile adapter
returns a dict with exactly the seven fixed fields, each bound to the
provider's value or to the explicit `None` marker when the provider
lacks the corresponding key; the financials adapter returns a dict with
exactly the three fixed summary fields, where each summary satisfies
the fixed-keys/explicit-marker discipline (or is the explicit
`"Not available"` marker for an empty statement). -/
theorem claim5_fixed_fields :
    (∀ cache now ticker info,
        cacheLookup cache ticker now companyInfoTTL = none →
        dictKeys (companyInfoRun cache now ticker (.ok info)).result =
          infoKeyMap.map Prod.fst ∧
        ∀ p ∈ infoKeyMap,
          PyVal.get (companyInfoRun cache now ticker (.ok info)).result p.1 =
            some ((dictGet info p.2).getD .pyNone)) ∧
      (∀ cache now ticker s,
        cacheLookup cache ticker now companyFinancialsTTL = none →
        dictKeys (companyFinancialsRun cache now ticker (.ok s)).result =
          financialsFieldNames ∧
        summaryFieldFacts s.incomeStmt incomeKeys
          (PyVal.get (companyFinancialsRun cache now ticker (.ok s)).result
            "latest_annual_income_statement_summary") ∧
        summaryFieldFacts s.balanceSheet balanceKeys
          (PyVal.get (companyFinancialsRun cache now ticker (.ok s)).result
            "latest_annual_balance_sheet_summary") ∧
        summaryFieldFacts s.cashflow cashflowKeys
          (PyVal.get (companyFinancialsRun cache now ticker (.ok s)).result
            "latest_annual_cash_flow_summary")) := by
  constructor
  · intro cache now ticker info hmiss
    have hres : (companyInfoRun cache now ticker (.ok info)).result =
        .pyDict (infoKeyMap.map (fun p => (p.1, (dictGet info p.2).getD .pyNone))) :=
      congrArg RunOut.result
        (cachedRun_miss companyInfoTTL ticker cache now
          (companyInfoBody ticker (.ok info)) hmiss)
    constructor
    · rw [hres]
      simp [dictKeys, List.map_map, Function.comp_def]
    · intro p hp
      rw [hres]
      exact dictGet_infoPairs info p hp
  · intro cache now ticker s hmiss
    have hres : (companyFinancialsRun cache now ticker (.ok s)).result =
        .pyDict
          [("latest_annual_income_statement_summary",
            summarizeStatement (getLatestAnnualData s.incomeStmt) incomeKeys),
           ("latest_annual_balance_sheet_summary",
            summarizeStatement (getLatestAnnualData s.balanceSheet) balanceKeys),
           ("latest_annual_cash_flow_summary",
            summarizeStatement (getLatestAnnualData s.cashflow) cashflowKeys)] :=
      congrArg RunOut.result
        (cachedRun_miss companyFinancialsTTL ticker cache now
          (companyFinancialsBody ticker (.ok s)) hmiss)
    refine ⟨by rw [hres]; rfl, ?_, ?_, ?_⟩
    · have hget : PyVal.get (companyFinancialsRun cache now ticker (.ok s)).result
          "latest_annual_income_statement_summary" =
          some (summarizeStatement (getLatestAnnualData s.incomeStmt) incomeKeys) := by
        rw [hres]; simp [PyVal.get, dictGet, List.find?]
      rw [hget]
      exact summaryFacts_of s.incomeStmt incomeKeys
    · have hget : PyVal.get (companyFinancialsRun cache now ticker (.ok s)).result
          "latest_annual_balance_sheet_summary" =
          some (summarizeStatement (getLatestAnnualData s.balanceSheet) balanceKeys) := by
        rw [hres]; simp [PyVal.get, dictGet, List.find?]
      rw [hget]
      exact summaryFacts_of s.balanceSheet balanceKeys
    · have hget : PyVal.get (companyFinancialsRun cache now ticker (.ok s)).result
          "latest_annual_cash_flow_summary" =
          some (summarizeStatement (getLatestAnnualData s.cashflow) cashflowKeys) := by
        rw [hres]; simp [PyVal.get, dictGet, List.find?]
      rw [hget]
      exact summaryFacts_of s.cashflow cashflowKeys

/-- Witness for C5: a profile fetch that lacks the sector field yields
an explicit `None` under `"sector"`, and an empty income statement
yields the explicit `"Not available"` marker. -/
theorem claim5_witness :
    dictKeys (companyInfoRun [] 0 "AAPL"
        (.ok [("longName", PyVal.pyStr "Apple Inc.")])).result = infoKeyMap.map Prod.fst ∧
      PyVal.get (companyInfoRun [] 0 "AAPL"
        (.ok [("longName", PyVal.pyStr "Apple Inc.")])).result "sector" =
        some PyVal.pyNone ∧
      PyVal.get (companyFinancialsRun [] 0 "AAPL" (.ok ⟨[], [], []⟩)).result
        "latest_annual_income_statement_summary" = some (PyVal.pyStr "Not available") :=
  ⟨(claim5_fixed_fields.1 [] 0 "AAPL" [("longName", PyVal.pyStr "Apple Inc.")] rfl).1,
   ((claim5_fixed_fields.1 [] 0 "AAPL" [("longName", PyVal.pyStr "Apple Inc.")] rfl).2
      ("sector", "sector") (by decide)).trans rfl,
   (claim5_fixed_fields.2 [] 0 "AAPL" ⟨[], [], []⟩ rfl).2.1.1 rfl⟩

/-- Claim C3: on a fresh fetch, an empty history yields the
"no historical data" error dict, and a non-empty history whose extreme
values are exact at two decimals yields the summary holding exactly the
first row's date, the last row's date, the maximum of the `High`
column, the minimum of the `Low` column, and the last row's `Close`;
the maximum/minimum are genuine bounds attained by some row. -/
theorem claim3_historical_summary :
    ∀ cache now ticker period rows,
      cacheLookup cache (histCacheKey ticker period) now historicalDataTTL = none →
      ((rows = [] →
        (historicalRun cache now ticker period (.ok rows)).result =
          errDict ("No historical data found for " ++ ticker ++ " for period " ++
            period ++ ".")) ∧
      (∀ h t, rows = h :: t →
        twoDecimal (maxHigh h t) → twoDecimal (minLow h t) →
        twoDecimal (t.getLastD h).Close →
        (historicalRun cache now ticker period (.ok rows)).result =
          .pyDict [("ticker", .pyStr ticker), ("period", .pyStr period),
                   ("start_date", .pyStr h.Date),
                   ("end_date", .pyStr (t.getLastD h).Date),
                   ("highest_price", .pyNum (maxHigh h t)),
                   ("lowest_price", .pyNum (minLow h t)),
                   ("current_price_at_period_end", .pyNum (t.getLastD h).Close)] ∧
        (∀ r ∈ rows, r.High ≤ maxHigh h t) ∧ maxHigh h t ∈ rows.map HistRow.High ∧
        (∀ r ∈ rows, minLow h t ≤ r.Low) ∧ minLow h t ∈ rows.map HistRow.Low)) := by
  intro cache now ticker period rows hmiss
  constructor
  · intro h
    subst h
    exact congrArg RunOut.result
      (cachedRun_miss historicalDataTTL (histCacheKey ticker period) cache now
        (historicalBody ticker period (.ok [])) hmiss)
  · intro h t hrows hd1 hd2 hd3
    subst hrows
    have hres : (historicalRun cache now ticker period (.ok (h :: t))).result =
        (historicalBody ticker period (.ok (h :: t))).result :=
      congrArg RunOut.result
        (cachedRun_miss historicalDataTTL (histCacheKey ticker period) cache now
          (historicalBody ticker period (.ok (h :: t))) hmiss)
    refine ⟨?_, ?_, ?_, ?_, ?_⟩
    · rw [hres]
      show PyVal.pyDict _ = _
      rw [round2_eq_self _ hd1, round2_eq_self _ hd2, round2_eq_self _ hd3]
    · intro r hr
      rcases List.mem_cons.mp hr with rfl | hr
      · exact (foldlMax_le HistRow.High t r.High).1
      · exact (foldlMax_le HistRow.High t h.High).2 r hr
    · unfold maxHigh
      rcases foldlMax_mem HistRow.High t h.High with h' | ⟨r, hr, h'⟩
      · rw [h', List.map_cons]; exact List.mem_cons_self _ _
      · rw [h', List.map_cons]
        exact List.mem_cons_of_mem _ (List.mem_map_of_mem HistRow.High hr)
    · intro r hr
      rcases List.mem_cons.mp hr with rfl | hr
      · exact (foldlMin_le HistRow.Low t r.Low).1
      · exact (foldlMin_le HistRow.Low t h.Low).2 r hr
    · unfold minLow
      rcases foldlMin_mem HistRow.Low t h.Low with h' | ⟨r, hr, h'⟩
      · rw [h', List.map_cons]; exact List.mem_cons_self _ _
      · rw [h', List.map_cons]
        exact List.mem_cons_of_mem _ (List.mem_map_of_mem HistRow.Low hr)

/-- Witness for C3: the spec's example series - max high 200.5, min low
150.25, last close 190, window 2023-01-01 to 2023-12-29 - produces
exactly those values, and the empty series produces the error dict. -/
theorem claim3_witness :
    (historicalRun [] 0 "AAPL" "1y"
        (.ok [⟨"2023-01-01", 160, 180, 601/4, 160⟩,
              ⟨"2023-12-29", 185, 401/2, 151, 190⟩])).result =
      .pyDict [("ticker", .pyStr "AAPL"), ("period", .pyStr "1y"),
               ("start_date", .pyStr "2023-01-01"), ("end_date", .pyStr "2023-12-29"),
               ("highest_price", .pyNum (401/2)), ("lowest_price", .pyNum (601/4)),
               ("current_price_at_period_end", .pyNum 190)] ∧
      (historicalRun [] 0 "NOPE" "1y" (.ok [])).result =
        errDict ("No historical data found for " ++ "NOPE" ++ " for period " ++
          "1y" ++ ".") := by
  have hmax : maxHigh (⟨"2023-01-01", 160, 180, 601/4, 160⟩ : HistRow)
      [⟨"2023-12-29", 185, 401/2, 151, 190⟩] = 401/2 := by
    unfold maxHigh
    simp
    norm_num
  have hmin : minLow (⟨"2023-01-01", 160, 180, 601/4, 160⟩ : HistRow)
      [⟨"2023-12-29", 185, 401/2, 151, 190⟩] = 601/4 := by
    unfold minLow
    simp
    norm_num
  have hd1 : twoDecimal (maxHigh (⟨"2023-01-01", 160, 180, 601/4, 160⟩ : HistRow)
      [⟨"2023-12-29", 185, 401/2, 151, 190⟩]) := by
    unfold twoDecimal
    rw [hmax]
    norm_num
  have hd2 : twoDecimal (minLow (⟨"2023-01-01", 160, 180, 601/4, 160⟩ : HistRow)
      [⟨"2023-12-29", 185, 401/2, 151, 190⟩]) := by
    unfold twoDecimal
    rw [hmin]
    norm_num
  have hd3 : twoDecimal ((List.getLastD [(⟨"2023-12-29", 185, 401/2, 151, 190⟩ : HistRow)]
      ⟨"2023-01-01", 160, 180, 601/4, 160⟩).Close) := by
    unfold twoDecimal
    norm_num
  constructor
  · have H := ((claim3_historical_summary [] 0 "AAPL" "1y"
        [⟨"2023-01-01", 160, 180, 601/4, 160⟩, ⟨"2023-12-29", 185, 401/2, 151, 190⟩]
        rfl).2 ⟨"2023-01-01", 160, 180, 601/4, 160⟩
        [⟨"2023-12-29", 185, 401/2, 151, 190⟩] rfl hd1 hd2 hd3).1
    rw [H, hmax, hmin]
    rfl
  · exact (claim3_historical_summary [] 0 "NOPE" "1y" [] rfl).1 rfl

theorem analyzeResolve_searchFetched (cache : Cache) (now : ℕ) (apiKey : Option String)
    (input : String) (prov : Except SearchExc AVResponse) (llm : String)
    (sel : Option ℕ) :
    (analyzeResolve cache now apiKey input prov llm sel).searchFetched =
      (tickerSearchRun cache now apiKey input prov).fetched := by
  unfold analyzeResolve
  dsimp only
  split_ifs <;> rfl

/-- Counterexample for C4: for the already-ticker-shaped input "AAPL",
the analyze handler still contacts the symbol-search provider (here it
also resolves to "AAPL" because the provider returns that single
match), contradicting "returns that input as the ticker without issuing
a call to the symbol-search provider". -/
theorem claim4_counterexample :
    (analyzeResolve [] 0 (some "k") "AAPL"
        (.ok ⟨none, none, some [⟨"AAPL", "Apple Inc", "United States"⟩]⟩) ""
        none).ticker = some "AAPL" ∧
      (analyzeResolve [] 0 (some "k") "AAPL"
        (.ok ⟨none, none, some [⟨"AAPL", "Apple Inc", "United States"⟩]⟩) ""
        none).searchFetched = true := by
  constructor <;> rfl

/-- Claim C4 as amended: the handler invokes the search tool for every
input - ticker-shaped or not - so with a cold cache and a configured
API key the symbol-search provider is contacted even for "AAPL"; the
1-5-uppercase short-circuit exists only as an instruction in the LLM
identification task's prompt, used in the fallback path. -/
theorem claim4_search_always_called :
    ∀ cache now key input prov llm sel,
      cacheLookup cache input now tickerSearchTTL = none →
      (analyzeResolve cache now (some key) input prov llm sel).searchFetched = true := by
  intro cache now key input prov llm sel hmiss
  rw [analyzeResolve_searchFetched]
  exact (congrArg RunOut.fetched
    (cachedRun_miss tickerSearchTTL input cache now
      (tickerSearchBody (some key) input prov) hmiss)).trans
    (tickerSearchBody_fetched key input prov)

/-- Witness for the amended C4 at the concrete input "AAPL". -/
theorem claim4_witness :
    (analyzeResolve [] 0 (some "k") "AAPL"
        (.ok ⟨none, none, some [⟨"AAPL", "Apple Inc", "United States"⟩]⟩) ""
        none).searchFetched = true :=
  claim4_search_always_called [] 0 "k" "AAPL"
    (.ok ⟨none, none, some [⟨"AAPL", "Apple Inc", "United States"⟩]⟩) "" none rfl

theorem tickerSearchRun_matches (cache : Cache) (now : ℕ) (key input : String)
    (m : AVMatch) (rest : List AVMatch)
    (hmiss : cacheLookup cache input now tickerSearchTTL = none) :
    tickerSearchRun cache now (some key) input (.ok ⟨none, none, some (m :: rest)⟩) =
      ⟨.pyDict [("matches", .pyList ((m :: rest).map matchToPy))],
       cacheInsert cache input
         (.pyDict [("matches", .pyList ((m :: rest).map matchToPy))]) now,
       true⟩ :=
  (cachedRun_miss tickerSearchTTL input cache now
    (tickerSearchBody (some key) input (.ok ⟨none, none, some (m :: rest)⟩)) hmiss).trans
    rfl

/-- Claim C7: on a fresh search that returns exactly one match, that
match's symbol becomes the ticker automatically (nothing is presented
and the LLM fallback is not used); on two or more matches the top five
(symbol, name, region) triples are presented and no ticker is set
until an external selection is made - the selected option's symbol is
taken, and no match is picked silently. -/
theorem claim7_match_selection :
    ∀ cache now key input ms llm sel,
      cacheLookup cache input now tickerSearchTTL = none →
      ((∀ m, ms = [m] →
          (analyzeResolve cache now (some key) input (.ok ⟨none, none, some ms⟩) llm
              sel).ticker = some m.symbol ∧
            (analyzeResolve cache now (some key) input (.ok ⟨none, none, some ms⟩) llm
              sel).options = [] ∧
            (analyzeResolve cache now (some key) input (.ok ⟨none, none, some ms⟩) llm
              sel).llmInvoked = false) ∧
        (2 ≤ ms.length →
          (analyzeResolve cache now (some key) input (.ok ⟨none, none, some ms⟩) llm
              sel).options =
            (ms.take 5).map (fun m => (m.symbol, m.name, m.region)) ∧
          (sel = none →
            (analyzeResolve cache now (some key) input (.ok ⟨none, none, some ms⟩) llm
              sel).ticker = none) ∧
          (∀ i, sel = some i →
            (analyzeResolve cache now (some key) input (.ok ⟨none, none, some ms⟩) llm
              sel).ticker = ((ms.take 5).get? i).map AVMatch.symbol) ∧
          (analyzeResolve cache now (some key) input (.ok ⟨none, none, some ms⟩) llm
              sel).llmInvoked = false)) := by
  intro cache now key input ms llm sel hmiss
  constructor
  · intro m hm
    subst hm
    have hrun := tickerSearchRun_matches cache now key input m [] hmiss
    refine ⟨?_, ?_, ?_⟩ <;>
      simp [analyzeResolve, hrun, truthyOpt, truthy, PyVal.get, dictGet, List.find?,
        asMatchList, matchSymbol, matchToPy]
  · intro hlen
    cases ms with
    | nil => simp at hlen
    | cons m rest =>
        cases rest with
        | nil => simp at hlen
        | cons r rest2 =>
            have hrun := tickerSearchRun_matches cache now key input m (r :: rest2) hmiss
            refine ⟨?_, ?_, ?_, ?_⟩
            · simp [analyzeResolve, hrun, truthyOpt, truthy, PyVal.get, dictGet,
                List.find?, asMatchList, ← List.map_take, List.map_map, Function.comp_def,
                matchTriple, getStrD, matchToPy]
            · intro hsel
              subst hsel
              simp [analyzeResolve, hrun, truthyOpt, truthy, PyVal.get, dictGet,
                List.find?, asMatchList]
            · intro i hsel
              subst hsel
              simp [analyzeResolve, hrun, truthyOpt, truthy, PyVal.get, dictGet,
                List.find?, asMatchList]
              have hlist : matchToPy m :: matchToPy r ::
                    List.take 3 (List.map matchToPy rest2) =
                  List.map matchToPy (m :: r :: List.take 3 rest2) := by
                simp [← List.map_take]
              rw [hlist, List.getElem?_map]
              cases hg : (m :: r :: List.take 3 rest2)[i]? with
              | none => rfl
              | some x => rfl
            · simp [analyzeResolve, hrun, truthyOpt, truthy, PyVal.get, dictGet,
                List.find?, asMatchList]

/-- Witness for C7: one match auto-selects "AAPL"; with two matches no
ticker is set until a selection arrives, and selecting entry 1 takes
that entry's symbol. -/
theorem claim7_witness :
    (analyzeResolve [] 0 (some "k") "Apple"
        (.ok ⟨none, none, some [⟨"AAPL", "Apple Inc", "United States"⟩]⟩) ""
        none).ticker = some "AAPL" ∧
      (analyzeResolve [] 0 (some "k") "Apple"
        (.ok ⟨none, none, some [⟨"AAPL", "Apple Inc", "United States"⟩,
          ⟨"APLE", "Apple Hospitality REIT Inc", "United States"⟩]⟩) ""
        none).ticker = none ∧
      (analyzeResolve [] 0 (some "k") "Apple"
        (.ok ⟨none, none, some [⟨"AAPL", "Apple Inc", "United States"⟩,
          ⟨"APLE", "Apple Hospitality REIT Inc", "United States"⟩]⟩) ""
        (some 1)).ticker = some "APLE" :=
  ⟨((claim7_match_selection [] 0 "k" "Apple" [⟨"AAPL", "Apple Inc", "United States"⟩]
      "" none rfl).1 ⟨"AAPL", "Apple Inc", "United States"⟩ rfl).1,
   ((claim7_match_selection [] 0 "k" "Apple"
      [⟨"AAPL", "Apple Inc", "United States"⟩,
       ⟨"APLE", "Apple Hospitality REIT Inc", "United States"⟩] "" none rfl).2
      (by decide)).2.1 rfl,
   (((claim7_match_selection [] 0 "k" "Apple"
      [⟨"AAPL", "Apple Inc", "United States"⟩,
       ⟨"APLE", "Apple Hospitality REIT Inc", "United States"⟩] "" (some 1) rfl).2
      (by decide)).2.2.1 1 rfl).trans rfl⟩
